import Mathlib

/-
Verification of the rolling-restart / lifecycle orchestrator in
bin/lib/cli/instances.py (commands instances_restart, instances_stop, and
helpers restart_one_instance, wait_for_elb_state, is_everything_awesome,
wait_for_healthok).

Modelling conventions:
* Cloud-side entities (autoscaling groups, instances) are observed, not
  owned, by the orchestrator; each observation the Python code makes via
  get_autoscaling_group / describe_autoscale is an input of the model.
* Mutating cloud calls and remote commands are recorded in an explicit
  trace (`CloudCall`) instead of performed.
* Steps that can raise RuntimeError (the only exception type the driver
  loop catches) are modelled as `Except String` values; the collaborators
  wait_for_autoscale_state, exec_remote and the boto3 client live outside
  the sources at hand, so their failure mode is modelled from the design
  document: a transport or cloud-API failure surfaces as the RuntimeError
  the driver catches.  Non-termination of the unbounded poll loops is not
  modelled at driver level (a wait either returns or raises); the poll
  loops themselves (wait_for_healthok, wait_for_elb_state) are modelled
  directly with explicit fuel below.
* The per-run dict `modified_groups : Dict[str, int]` is modelled as an
  insertion-ordered association list, with Python dict assignment
  semantics (`dictSet`).
-/

/-- Observation of an autoscaling group as returned by
get_autoscaling_group: its name and desired/min/max capacities. -/
structure ASGState where
  name : String
  desired : Nat
  minSize : Nat
  maxSize : Nat
deriving DecidableEq, Repr

/-- Observation of an instance's autoscale membership as returned by
instance.describe_autoscale(): the owning group and the lifecycle state. -/
structure AutoscaleStatus where
  autoScalingGroupName : String
  lifecycleState : String
deriving DecidableEq, Repr

/-- The capacity ledger: the Python dict modified_groups, as an
insertion-ordered association list from group name to original desired
capacity. -/
abbrev Ledger := List (String × Nat)

/-- Python dict assignment `d[k] = v`: replace the value if the key is
present, otherwise append the new binding at the end (insertion order). -/
def dictSet (d : Ledger) (k : String) (v : Nat) : Ledger :=
  if d.any (fun p => p.1 == k) then
    d.map (fun p => if p.1 == k then (k, v) else p)
  else
    d ++ [(k, v)]

/-- A mutating call issued against the cloud or an instance: scale-in
protection changes, standby transitions, desired-capacity updates, and
remote commands delivered over the execution transport. -/
inductive CloudCall where
  | setInstanceProtection (group instId : String) (protectedFromScaleIn : Bool)
  | enterStandby (instId group : String) (shouldDecrementDesiredCapacity : Bool)
  | exitStandby (instId group : String)
  | updateAutoScalingGroup (group : String) (desiredCapacity : Nat)
  | remoteCommand (instId : String) (argv : List String)
deriving DecidableEq, Repr

deriving instance DecidableEq for Except

/-- Outcomes of the blocking collaborator steps inside
restart_one_instance, in program order.  `Except.error msg` models the
step raising a RuntimeError with that message; `Except.ok` models it
returning normally.  asGroup is the state of the owning group observed by
the get_autoscaling_group call at the capacity guard. -/
structure RestartEnv where
  asGroup : ASGState
  standbyWait : Except String Unit
  restartCmd : Except String String
  healthWait : Except String Unit
  inServiceWait : Except String Unit
  elbHealthyWait : Except String Unit

/-- Embedding of restart_one_instance(as_group_name, instance,
modified_groups).  Returns the overall result (ok, or the RuntimeError
message that escaped), the ledger after the call (the dict is mutated
before any step can raise), and the trace of mutating calls issued. -/
def restart_one_instance (asGroupName instId : String) (env : RestartEnv)
    (modified_groups : Ledger) : Except String Unit × Ledger × List CloudCall :=
  let calls0 : List CloudCall := [CloudCall.setInstanceProtection asGroupName instId true]
  let as_group := env.asGroup
  let adjustment_required : Bool := as_group.desired == as_group.minSize
  let modified : Ledger :=
    if adjustment_required then dictSet modified_groups as_group.name as_group.desired
    else modified_groups
  let calls1 := calls0 ++ [CloudCall.enterStandby instId asGroupName (!adjustment_required)]
  match env.standbyWait with
  | Except.error e => (Except.error e, modified, calls1)
  | Except.ok _ =>
    let calls2 := calls1 ++
      [CloudCall.remoteCommand instId ["sudo", "systemctl", "restart", "compiler-explorer"]]
    match env.restartCmd with
    | Except.error e => (Except.error e, modified, calls2)
    | Except.ok _ =>
      match env.healthWait with
      | Except.error e => (Except.error e, modified, calls2)
      | Except.ok _ =>
        let calls3 := calls2 ++ [CloudCall.exitStandby instId asGroupName]
        match env.inServiceWait with
        | Except.error e => (Except.error e, modified, calls3)
        | Except.ok _ =>
          match env.elbHealthyWait with
          | Except.error e => (Except.error e, modified, calls3)
          | Except.ok _ =>
            (Except.ok (), modified,
              calls3 ++ [CloudCall.setInstanceProtection asGroupName instId false])

/-- Per-instance result of the fleet restart loop (section 3 of the
design: RestartOutcome). -/
inductive RestartOutcome where
  | success
  | skippedNotInGroup
  | skippedNotInService
  | failed (reason : String)
deriving DecidableEq, Repr

/-- Whether an outcome counts as a failure for the aggregate flag. -/
def RestartOutcome.isFailed : RestartOutcome → Bool
  | RestartOutcome.failed _ => true
  | _ => false

/-- One candidate instance of the fleet restart loop: its id, the result
of its describe_autoscale() precondition lookup (none when the instance is
no longer in the ASG), and the behaviour of its lifecycle steps. -/
structure DriverInstance where
  instId : String
  autoscale : Option AutoscaleStatus
  env : RestartEnv

/-- Loop-carried state of instances_restart: the capacity ledger
modified_groups, the aggregate failed flag, and the per-instance outcomes
together with the mutating calls issued on each instance's behalf. -/
structure RunState where
  modified : Ledger
  failed : Bool
  outcomes : List (RestartOutcome × List CloudCall)

/-- One iteration of the instances_restart loop body: skip when the
instance is no longer in the ASG, skip when its lifecycle state is not
InService, otherwise run restart_one_instance, catching a RuntimeError as
a failure (setting the failed flag) and continuing. -/
def runStep (s : RunState) (inst : DriverInstance) : RunState :=
  match inst.autoscale with
  | none => { s with outcomes := s.outcomes ++ [(RestartOutcome.skippedNotInGroup, [])] }
  | some st =>
    if st.lifecycleState = "InService" then
      let r := restart_one_instance st.autoScalingGroupName inst.instId inst.env s.modified
      match r.1 with
      | Except.ok _ =>
        { modified := r.2.1, failed := s.failed,
          outcomes := s.outcomes ++ [(RestartOutcome.success, r.2.2)] }
      | Except.error e =>
        { modified := r.2.1, failed := true,
          outcomes := s.outcomes ++ [(RestartOutcome.failed e, r.2.2)] }
    else { s with outcomes := s.outcomes ++ [(RestartOutcome.skippedNotInService, [])] }

/-- Report of a whole instances_restart run: outcomes in order, the final
failed flag, the ledger at the end of the loop, the desired-capacity
restoration calls issued by the final loop over modified_groups.items(),
and the process exit status passed to sys.exit. -/
structure RunReport where
  outcomes : List (RestartOutcome × List CloudCall)
  failed : Bool
  finalLedger : Ledger
  restoreCalls : List CloudCall
  exitCode : Nat

/-- Embedding of the instances_restart command body (after confirmation):
iterate the candidate instances with runStep, then iterate
modified_groups.items() issuing update_auto_scaling_group with the
recorded desired capacity, then sys.exit(1 if failed else 0).  The motd
bookkeeping and wall-clock reporting have no effect on the modelled state
and are omitted. -/
def instances_restart (to_restart : List DriverInstance) : RunReport :=
  let s := to_restart.foldl runStep { modified := [], failed := false, outcomes := [] }
  { outcomes := s.outcomes
    failed := s.failed
    finalLedger := s.modified
    restoreCalls := s.modified.map (fun p => CloudCall.updateAutoScalingGroup p.1 p.2)
    exitCode := if s.failed then 1 else 0 }

/-- Behaviour of one instance at one poll iteration: the EC2 state name
read after instance.update(), the ELB health, and the result of the
health-check curl delivered by exec_remote (none models the transport
raising CalledProcessError, which the probe catches). -/
structure InstancePoll where
  stateName : String
  elbHealth : String
  healthcheckResponse : Option String
deriving DecidableEq, Repr

/-- Python str.strip(): remove leading and trailing whitespace from the
response body (structural list recursion, so that it evaluates). -/
def pyStrip (s : String) : String :=
  String.mk (((s.data.dropWhile Char.isWhitespace).reverse.dropWhile Char.isWhitespace).reverse)

/-- Embedding of is_everything_awesome(instance): the stripped response
body of the local healthcheck is compared against the expected string;
a transport error (caught CalledProcessError) yields false. -/
def is_everything_awesome (resp : Option String) : Bool :=
  match resp with
  | some response => pyStrip response == "Everything is awesome"
  | none => false

/-- The wait_for_healthok polling loop, from poll index i with explicit
fuel (none models the loop still running when the fuel runs out; the
Python loop is unbounded).  Each iteration consults only the probe
response of that poll. -/
def wait_for_healthok_from (inst : Nat → InstancePoll) (i : Nat) : Nat → Option Unit
  | 0 => none
  | fuel + 1 =>
    if is_everything_awesome (inst i).healthcheckResponse then some ()
    else wait_for_healthok_from inst (i + 1) fuel

/-- Embedding of wait_for_healthok(instance), polling from iteration 0. -/
def wait_for_healthok (inst : Nat → InstancePoll) (fuel : Nat) : Option Unit :=
  wait_for_healthok_from inst 0 fuel

/-- The wait_for_elb_state polling loop, from poll index i with explicit
fuel.  Each iteration re-reads the instance: if the EC2 state is no longer
running it raises RuntimeError (modelled as Except.error), otherwise it
returns once the ELB health equals the requested state. -/
def wait_for_elb_state_from (inst : Nat → InstancePoll) (state : String) (i : Nat) :
    Nat → Option (Except String Unit)
  | 0 => none
  | fuel + 1 =>
    let p := inst i
    if p.stateName ≠ "running" then
      some (Except.error ("Instance no longer running (state " ++ p.stateName ++ ")"))
    else if p.elbHealth = state then some (Except.ok ())
    else wait_for_elb_state_from inst state (i + 1) fuel

/-- Embedding of wait_for_elb_state(instance, state), polling from 0. -/
def wait_for_elb_state (inst : Nat → InstancePoll) (state : String) (fuel : Nat) :
    Option (Except String Unit) :=
  wait_for_elb_state_from inst state 0 fuel

/-- The final restoration loop of instances_restart (the iteration over
modified_groups.items()) as a standalone operation on a ledger: it issues
one update_auto_scaling_group call per recorded group and leaves the dict
itself untouched (the Python loop only reads it). -/
def restoreAll (ledger : Ledger) : List CloudCall × Ledger :=
  (ledger.map (fun p => CloudCall.updateAutoScalingGroup p.1 p.2), ledger)

/-- Semantics of applying the restoration calls of a ledger to the
cloud-side desired capacities, in ledger order: each recorded group's
desired capacity is set to the recorded value. -/
def applyRestore (caps : String → Nat) (ledger : Ledger) : String → Nat :=
  ledger.foldl (fun c p => Function.update c p.1 p.2) caps

/-- Deployment environments of the CLI configuration.  Modelled from the
spec: lib/env.py is not among the sources at hand; only the PROD
comparison made by instances_stop matters here, the non-PROD environments
stand for all the others. -/
inductive Environment where
  | prod
  | beta
  | staging
deriving DecidableEq, Repr

/-- Embedding of the instances_stop command: in PROD it prints an abort
message and returns without issuing anything; otherwise it stops the
service on every instance only when the operator confirmed (the
are_you_sure prompt is the external confirmation policy, modelled by the
confirmed flag).  The result is the list of remote commands issued. -/
def instances_stop (env : Environment) (confirmed : Bool)
    (targets : List String) : List CloudCall :=
  if env = Environment.prod then []
  else if confirmed then
    targets.map (fun i => CloudCall.remoteCommand i ["sudo", "systemctl", "stop", "compiler-explorer"])
  else []

/-- Shorthand for a step environment in which every blocking collaborator
step returns normally, against a given observed group state. -/
def okWaits (g : ASGState) : RestartEnv :=
  { asGroup := g
    standbyWait := Except.ok ()
    restartCmd := Except.ok ""
    healthWait := Except.ok ()
    inServiceWait := Except.ok ()
    elbHealthyWait := Except.ok () }

/-- The end-to-end scenario of section 8 of the design document: group
asg-1 with desired = min = 2, every step succeeding. -/
def envC1 : RestartEnv := okWaits { name := "asg-1", desired := 2, minSize := 2, maxSize := 4 }

/-- First of two successive processed instances of group asg-2: observed
with desired = min = 5. -/
def c2i1 : DriverInstance :=
  { instId := "i-1"
    autoscale := some { autoScalingGroupName := "asg-2", lifecycleState := "InService" }
    env := okWaits { name := "asg-2", desired := 5, minSize := 5, maxSize := 8 } }

/-- Second processed instance of group asg-2: by the time it is observed
the group's min size has been changed externally, so desired = min = 7. -/
def c2i2 : DriverInstance :=
  { instId := "i-2"
    autoscale := some { autoScalingGroupName := "asg-2", lifecycleState := "InService" }
    env := okWaits { name := "asg-2", desired := 7, minSize := 7, maxSize := 8 } }

/-- A single processed instance reserving group gw at desired 4. -/
def c2wit : DriverInstance :=
  { instId := "i-3"
    autoscale := some { autoScalingGroupName := "gw", lifecycleState := "InService" }
    env := okWaits { name := "gw", desired := 4, minSize := 4, maxSize := 6 } }

/-- Observation of group asg-5 with desired = min = 2. -/
def c5envA : RestartEnv := okWaits { name := "asg-5", desired := 2, minSize := 2, maxSize := 4 }

/-- Later observation of group asg-5 after its min size was raised
externally: desired = min = 3. -/
def c5envB : RestartEnv := okWaits { name := "asg-5", desired := 3, minSize := 3, maxSize := 4 }

/-- Observation of group g with desired = min = 2 and all steps normal. -/
def c5wenv : RestartEnv := okWaits { name := "g", desired := 2, minSize := 2, maxSize := 4 }

/-- An instance whose compute resource is terminated at every poll while
its local healthcheck still answers with the expected body. -/
def goneInst : Nat → InstancePoll := fun _ =>
  { stateName := "terminated", elbHealth := "healthy",
    healthcheckResponse := some "Everything is awesome" }

/-- An instance whose healthcheck transport fails on the first poll and
answers with the expected body afterwards. -/
def errPoll : Nat → InstancePoll := fun j =>
  if j = 0 then { stateName := "running", elbHealth := "healthy", healthcheckResponse := none }
  else
    { stateName := "running", elbHealth := "healthy",
      healthcheckResponse := some "Everything is awesome" }

/-- An empty loop state of the fleet restart driver. -/
def skipStateW : RunState := { modified := [], failed := false, outcomes := [] }

/-- Environment for the skipped-instance scenarios (never consulted). -/
def envW7 : RestartEnv := okWaits { name := "g7", desired := 2, minSize := 2, maxSize := 4 }

/-- A candidate instance that is no longer in any autoscaling group. -/
def skipInstA : DriverInstance := { instId := "i-9", autoscale := none, env := envW7 }

/-- A candidate instance whose lifecycle state is Standby, not InService. -/
def skipInstB : DriverInstance :=
  { instId := "i-8"
    autoscale := some { autoScalingGroupName := "g7", lifecycleState := "Standby" }
    env := envW7 }


/-- The outcome one candidate instance gets when processed on its own
(with an empty ledger); the restart result of an instance does not depend
on the ledger, so this is also its outcome inside any run. -/
def instOutcome (inst : DriverInstance) : RestartOutcome :=
  match inst.autoscale with
  | none => RestartOutcome.skippedNotInGroup
  | some st =>
    if st.lifecycleState = "InService" then
      match (restart_one_instance st.autoScalingGroupName inst.instId inst.env []).1 with
      | Except.ok _ => RestartOutcome.success
      | Except.error e => RestartOutcome.failed e
    else RestartOutcome.skippedNotInService

/-- The capacity reservation one candidate instance makes: the singleton
recorded at the capacity guard when the instance is processed and its
group's observed desired capacity equals its min capacity, nothing
otherwise. -/
def instReservation (inst : DriverInstance) : List (String × Nat) :=
  match inst.autoscale with
  | none => []
  | some st =>
    if st.lifecycleState = "InService" then
      if inst.env.asGroup.desired == inst.env.asGroup.minSize then
        [(inst.env.asGroup.name, inst.env.asGroup.desired)]
      else []
    else []

/-- All capacity reservations of a run, in processing order. -/
def reservationsOf : List DriverInstance → List (String × Nat)
  | [] => []
  | inst :: rest => instReservation inst ++ reservationsOf rest

theorem restart_ledger_eq (n i : String) (env : RestartEnv) (l : Ledger) :
    (restart_one_instance n i env l).2.1 =
      if env.asGroup.desired == env.asGroup.minSize then
        dictSet l env.asGroup.name env.asGroup.desired
      else l := by
  rcases env with ⟨g, sw, rc, hw, isw, ew⟩
  cases sw <;> cases rc <;> cases hw <;> cases isw <;> cases ew <;> rfl

theorem restart_enterStandby_mem (n i : String) (env : RestartEnv) (l : Ledger) :
    CloudCall.enterStandby i n (!(env.asGroup.desired == env.asGroup.minSize)) ∈
      (restart_one_instance n i env l).2.2 := by
  rcases env with ⟨g, sw, rc, hw, isw, ew⟩
  cases sw <;> cases rc <;> cases hw <;> cases isw <;> cases ew <;> simp [restart_one_instance]

theorem restart_result_indep (n i : String) (env : RestartEnv) (l l' : Ledger) :
    (restart_one_instance n i env l).1 = (restart_one_instance n i env l').1 := by
  rcases env with ⟨g, sw, rc, hw, isw, ew⟩
  cases sw <;> cases rc <;> cases hw <;> cases isw <;> cases ew <;> rfl


theorem lookup_any (l : Ledger) (k : String) (v : Nat) (h : l.lookup k = some v) :
    l.any (fun p => p.1 == k) = true := by
  induction l with
  | nil => simp at h
  | cons a t ih =>
    rcases a with ⟨ak, av⟩
    rw [List.lookup_cons] at h
    cases hbe : k == ak
    · rw [hbe] at h
      simp only [List.any_cons, Bool.or_eq_true]
      exact Or.inr (ih h)
    · simp only [List.any_cons, Bool.or_eq_true]
      left
      have hk : k = ak := by simpa using hbe
      simp [hk]

theorem map_replace_id (l : Ledger) (k : String) (v : Nat)
    (h : k ∉ l.map Prod.fst) :
    l.map (fun p => if p.1 == k then (k, v) else p) = l := by
  induction l with
  | nil => rfl
  | cons a t ih =>
    simp only [List.map_cons, List.mem_cons, not_or] at h
    have hak : ¬ ((a.1 == k) = true) := by
      simp only [beq_iff_eq]
      exact fun hc => h.1 hc.symm
    simp only [List.map_cons, if_neg hak, ih h.2]

theorem lookup_map_replace (l : Ledger) (k : String) (v : Nat)
    (h : l.any (fun p => p.1 == k) = true) :
    (l.map (fun p => if p.1 == k then (k, v) else p)).lookup k = some v := by
  induction l with
  | nil => simp at h
  | cons a t ih =>
    rcases a with ⟨ak, av⟩
    simp only [List.any_cons, Bool.or_eq_true] at h
    by_cases hk : ak = k
    · subst hk
      simp
    · have hne : ¬ (((ak, av).1 == k) = true) := by simpa using hk
      rw [List.map_cons, if_neg hne, List.lookup_cons]
      have hkak : (k == ak) = false := by
        simp only [beq_eq_false_iff_ne, ne_eq]
        exact fun hc => hk hc.symm
      rw [hkak]
      apply ih
      rcases h with h1 | h2
      · exact absurd (by simpa using h1) hk
      · exact h2

theorem dictSet_lookup_self (l : Ledger) (k : String) (v : Nat) :
    (dictSet l k v).lookup k = some v := by
  unfold dictSet
  by_cases h : l.any (fun p => p.1 == k) = true
  · rw [if_pos h]
    exact lookup_map_replace l k v h
  · rw [if_neg h, List.lookup_append]
    have hnone : l.lookup k = none := by
      rw [List.lookup_eq_none_iff]
      intro p hp
      simp only [List.any_eq_true, not_exists, not_and, Bool.not_eq_true] at h
      have := h p hp
      simp only [bne_iff_ne, ne_eq]
      intro hc
      rw [← hc] at this
      simp at this
    rw [hnone]
    simp

theorem map_replace_self (l : Ledger) (k : String) (v : Nat)
    (hnd : (l.map Prod.fst).Nodup) (h : l.lookup k = some v) :
    l.map (fun p => if p.1 == k then (k, v) else p) = l := by
  induction l with
  | nil => rfl
  | cons a t ih =>
    rcases a with ⟨ak, av⟩
    rw [List.lookup_cons] at h
    simp only [List.map_cons, List.nodup_cons] at hnd ⊢
    cases hbe : k == ak
    · rw [hbe] at h
      have hne : ¬ (((ak, av).1 == k) = true) := by
        simp only [beq_iff_eq]
        intro hc
        rw [hc] at hbe
        simp at hbe
      rw [if_neg hne, ih hnd.2 h]
    · rw [hbe] at h
      have hav : av = v := by simpa using h
      have hk : k = ak := by simpa using hbe
      subst hk
      subst hav
      simp only [beq_self_eq_true, if_pos]
      rw [map_replace_id t k av hnd.1]

theorem dictSet_id_of_lookup (l : Ledger) (k : String) (v : Nat)
    (hnd : (l.map Prod.fst).Nodup) (h : l.lookup k = some v) : dictSet l k v = l := by
  unfold dictSet
  rw [if_pos (lookup_any l k v h)]
  exact map_replace_self l k v hnd h

theorem map_replace_fst (l : Ledger) (k : String) (v : Nat) :
    (l.map (fun p => if p.1 == k then (k, v) else p)).map Prod.fst = l.map Prod.fst := by
  induction l with
  | nil => rfl
  | cons a t ih =>
    simp only [List.map_cons, ih]
    cases hbe : (a.1 == k)
    · simp [hbe]
    · have : a.1 = k := by simpa using hbe
      simp [hbe, this]

theorem dictSet_keys_nodup (l : Ledger) (k : String) (v : Nat)
    (h : (l.map Prod.fst).Nodup) : ((dictSet l k v).map Prod.fst).Nodup := by
  unfold dictSet
  by_cases hany : l.any (fun p => p.1 == k) = true
  · rw [if_pos hany, map_replace_fst]
    exact h
  · rw [if_neg hany, List.map_append]
    rw [List.nodup_append]
    refine ⟨h, List.nodup_singleton _, ?_⟩
    intro x hx hk2
    simp only [List.map_cons, List.map_nil, List.mem_singleton] at hk2
    subst hk2
    simp only [List.any_eq_true, not_exists, not_and, Bool.not_eq_true] at hany
    rcases List.mem_map.mp hx with ⟨p, hp, hpk⟩
    have := hany p hp
    rw [hpk] at this
    simp at this

theorem applyRestore_nil (c : String → Nat) : applyRestore c [] = c := rfl

theorem applyRestore_cons (c : String → Nat) (a : String × Nat) (t : Ledger) :
    applyRestore c (a :: t) = applyRestore (Function.update c a.1 a.2) t := rfl

theorem applyRestore_not_mem (l : Ledger) : ∀ (c : String → Nat) (g : String),
    g ∉ l.map Prod.fst → applyRestore c l g = c g := by
  induction l with
  | nil => intro c g _; rfl
  | cons a t ih =>
    intro c g hg
    simp only [List.map_cons, List.mem_cons, not_or] at hg
    rw [applyRestore_cons, ih _ g hg.2]
    exact Function.update_noteq hg.1 a.2 c

theorem applyRestore_congr (l : Ledger) : ∀ (c c' : String → Nat),
    (∀ k, k ∉ l.map Prod.fst → c k = c' k) → ∀ g, applyRestore c l g = applyRestore c' l g := by
  induction l with
  | nil => intro c c' h g; exact h g (by simp)
  | cons a t ih =>
    intro c c' h g
    rw [applyRestore_cons, applyRestore_cons]
    apply ih
    intro k hk
    by_cases hka : k = a.1
    · subst hka
      simp [Function.update_same]
    · rw [Function.update_noteq hka, Function.update_noteq hka]
      apply h
      simp only [List.map_cons, List.mem_cons, not_or]
      exact ⟨hka, hk⟩

theorem applyRestore_idem (l : Ledger) (c : String → Nat) (g : String) :
    applyRestore (applyRestore c l) l g = applyRestore c l g :=
  applyRestore_congr l (applyRestore c l) c (fun k hk => applyRestore_not_mem l c k hk) g

theorem applyRestore_lookup (l : Ledger) : ∀ (c : String → Nat) (g : String) (d : Nat),
    (l.map Prod.fst).Nodup → l.lookup g = some d → applyRestore c l g = d := by
  induction l with
  | nil => intro c g d _ h; simp at h
  | cons a t ih =>
    intro c g d hnd h
    rcases a with ⟨ak, av⟩
    rw [List.lookup_cons] at h
    simp only [List.map_cons, List.nodup_cons] at hnd
    cases hbe : g == ak
    · rw [hbe] at h
      rw [applyRestore_cons]
      exact ih _ g d hnd.2 h
    · rw [hbe] at h
      have hav : av = d := by simpa using h
      have hg : g = ak := by simpa using hbe
      rw [applyRestore_cons]
      rw [applyRestore_not_mem t _ g (by rw [hg]; exact hnd.1)]
      rw [hg]
      simp [Function.update_same, hav]

theorem foldl_dictSet_nodup (rs : List (String × Nat)) : ∀ l : Ledger,
    (l.map Prod.fst).Nodup →
    ((rs.foldl (fun acc p => dictSet acc p.1 p.2) l).map Prod.fst).Nodup := by
  induction rs with
  | nil => intro l h; exact h
  | cons a t ih => intro l h; exact ih _ (dictSet_keys_nodup l a.1 a.2 h)

theorem runStep_modified (s : RunState) (a : DriverInstance) :
    (runStep s a).modified =
      (instReservation a).foldl (fun l p => dictSet l p.1 p.2) s.modified := by
  rcases a with ⟨id, auto, env⟩
  cases auto with
  | none => rfl
  | some st =>
    simp only [runStep, instReservation]
    by_cases h : st.lifecycleState = "InService"
    · simp only [if_pos h]
      cases hr : (restart_one_instance st.autoScalingGroupName id env s.modified).1 <;>
        · simp only []
          rw [restart_ledger_eq]
          cases hb : (env.asGroup.desired == env.asGroup.minSize) <;> simp [hb]
    · simp [if_neg h]

theorem runStep_outcomes_fst (s : RunState) (a : DriverInstance) :
    (runStep s a).outcomes.map Prod.fst = s.outcomes.map Prod.fst ++ [instOutcome a] := by
  rcases a with ⟨id, auto, env⟩
  cases auto with
  | none => simp [runStep, instOutcome]
  | some st =>
    simp only [runStep, instOutcome]
    by_cases h : st.lifecycleState = "InService"
    · simp only [if_pos h]
      have hind := restart_result_indep st.autoScalingGroupName id env s.modified []
      cases hr : (restart_one_instance st.autoScalingGroupName id env s.modified).1 with
      | ok v =>
        rw [hr] at hind
        rw [← hind]
        simp
      | error e =>
        rw [hr] at hind
        rw [← hind]
        simp
    · simp [if_neg h]

theorem runStep_failed (s : RunState) (a : DriverInstance)
    (h : s.failed = s.outcomes.any (fun p => p.1.isFailed)) :
    (runStep s a).failed = (runStep s a).outcomes.any (fun p => p.1.isFailed) := by
  rcases a with ⟨id, auto, env⟩
  cases auto with
  | none => simp [runStep, h, RestartOutcome.isFailed]
  | some st =>
    simp only [runStep]
    by_cases hls : st.lifecycleState = "InService"
    · simp only [if_pos hls]
      cases hr : (restart_one_instance st.autoScalingGroupName id env s.modified).1 with
      | ok v => simp [h, RestartOutcome.isFailed]
      | error e => simp [RestartOutcome.isFailed]
    · simp [if_neg hls, h, RestartOutcome.isFailed]

theorem foldl_runStep_outcomes (insts : List DriverInstance) : ∀ s : RunState,
    ((insts.foldl runStep s).outcomes).map Prod.fst =
      s.outcomes.map Prod.fst ++ insts.map instOutcome := by
  induction insts with
  | nil => intro s; simp
  | cons a t ih =>
    intro s
    rw [List.foldl_cons, ih (runStep s a), runStep_outcomes_fst]
    simp [List.append_assoc]

theorem foldl_runStep_failed (insts : List DriverInstance) : ∀ s : RunState,
    s.failed = s.outcomes.any (fun p => p.1.isFailed) →
    (insts.foldl runStep s).failed =
      ((insts.foldl runStep s).outcomes).any (fun p => p.1.isFailed) := by
  induction insts with
  | nil => intro s h; exact h
  | cons a t ih => intro s h; exact ih (runStep s a) (runStep_failed s a h)

theorem foldl_runStep_modified (insts : List DriverInstance) : ∀ s : RunState,
    (insts.foldl runStep s).modified =
      (reservationsOf insts).foldl (fun l p => dictSet l p.1 p.2) s.modified := by
  induction insts with
  | nil => intro s; rfl
  | cons a t ih =>
    intro s
    rw [List.foldl_cons, ih (runStep s a), runStep_modified, reservationsOf,
      List.foldl_append]

theorem finalLedger_nodup (insts : List DriverInstance) :
    (((instances_restart insts).finalLedger).map Prod.fst).Nodup := by
  show (((insts.foldl runStep
    { modified := [], failed := false, outcomes := [] }).modified).map Prod.fst).Nodup
  rw [foldl_runStep_modified]
  exact foldl_dictSet_nodup _ [] (by simp)

/-- C1, counterexample: in the section-8 scenario (asg-1 with desired =
min = 2) the enter-standby call restart_one_instance issues carries
ShouldDecrementDesiredCapacity = false, not true as the claim states,
while the original desired capacity 2 is recorded in the ledger. -/
theorem c1_counterexample :
    (CloudCall.enterStandby "i-1" "asg-1" true ∉
      (restart_one_instance "asg-1" "i-1" envC1 []).2.2) ∧
    (CloudCall.enterStandby "i-1" "asg-1" false ∈
      (restart_one_instance "asg-1" "i-1" envC1 []).2.2) ∧
    (restart_one_instance "asg-1" "i-1" envC1 []).2.1 = [("asg-1", 2)] := by
  decide

/-- C1 (amended): in restart_one_instance, if the owning group's desired
capacity equals its min capacity at the capacity-guard check, then the
enter-standby call is made with ShouldDecrementDesiredCapacity = false and
the group's original desired capacity is recorded in the capacity ledger
(modified_groups); otherwise standby is entered with
ShouldDecrementDesiredCapacity = true and nothing is recorded. -/
theorem c1_amended (asGroupName instId : String) (env : RestartEnv) (ledger : Ledger) :
    (CloudCall.enterStandby instId asGroupName
        (!(env.asGroup.desired == env.asGroup.minSize)) ∈
      (restart_one_instance asGroupName instId env ledger).2.2) ∧
    (restart_one_instance asGroupName instId env ledger).2.1 =
      (if env.asGroup.desired == env.asGroup.minSize then
        dictSet ledger env.asGroup.name env.asGroup.desired
      else ledger) :=
  ⟨restart_enterStandby_mem asGroupName instId env ledger,
   restart_ledger_eq asGroupName instId env ledger⟩

/-- C3: the fleet restart run exits with status 0 when no outcome is a
failure and 1 otherwise; the aggregate failed flag equals "some outcome is
Failed", and the two skip outcomes are not failures, so skipped instances
never set the flag. -/
theorem c3_exit_status (insts : List DriverInstance) :
    ((instances_restart insts).exitCode =
      if ((instances_restart insts).outcomes).any (fun p => p.1.isFailed) then 1 else 0) ∧
    ((instances_restart insts).failed =
      ((instances_restart insts).outcomes).any (fun p => p.1.isFailed)) ∧
    RestartOutcome.skippedNotInGroup.isFailed = false ∧
    RestartOutcome.skippedNotInService.isFailed = false := by
  have hf := foldl_runStep_failed insts
    { modified := [], failed := false, outcomes := [] } (by simp)
  refine ⟨?_, hf, rfl, rfl⟩
  show (if (insts.foldl runStep { modified := [], failed := false, outcomes := [] }).failed
    then 1 else 0) = _
  rw [hf]
  rfl

/-- C4: failure isolation in the fleet restart loop. Every candidate
instance's outcome in a run equals the outcome it gets processed on its
own: a RuntimeError raised for instance A is caught, recorded as
Failed(reason), and does not change whether any later instance B is
attempted or what its outcome is. -/
theorem c4_failure_isolation (insts : List DriverInstance) :
    ((instances_restart insts).outcomes).map Prod.fst = insts.map instOutcome := by
  show ((insts.foldl runStep
    { modified := [], failed := false, outcomes := [] }).outcomes).map Prod.fst = _
  rw [foldl_runStep_outcomes]
  simp

/-- C9, counterexample: after the restoration loop runs over the ledger
containing asg-1 at 2, the ledger is not empty (the Python loop never
clears the dict), and a second restoration run issues the same
update call again rather than doing nothing. -/
theorem c9_counterexample :
    ((restoreAll [("asg-1", 2)]).2 = [("asg-1", 2)]) ∧
    (([("asg-1", 2)] : Ledger) ≠ []) ∧
    ((restoreAll (restoreAll [("asg-1", 2)]).2).1 =
      [CloudCall.updateAutoScalingGroup "asg-1" 2]) := by
  decide

/-- C9 (amended): running the restoration twice is safe, but not because
the ledger empties — the loop leaves the ledger unchanged, so the second
run re-issues exactly the same desired-capacity updates, and applying them
after the first run leaves every group's desired capacity unchanged. -/
theorem c9_amended (ledger : Ledger) (caps : String → Nat) (g : String) :
    ((restoreAll ledger).2 = ledger) ∧
    ((restoreAll (restoreAll ledger).2).1 = (restoreAll ledger).1) ∧
    (applyRestore (applyRestore caps ledger) ledger g = applyRestore caps ledger g) :=
  ⟨rfl, rfl, applyRestore_idem ledger caps g⟩

/-- C2, counterexample: a run over two instances of group asg-2, first
observed at desired = min = 5 and later (after an external min change) at
desired = min = 7, restores asg-2 to 7, the most recently recorded value,
whereas the value observed when the group was first reserved was 5. -/
theorem c2_counterexample :
    ((instances_restart [c2i1, c2i2]).restoreCalls =
      [CloudCall.updateAutoScalingGroup "asg-2" 7]) ∧
    ((instances_restart [c2i1]).finalLedger = [("asg-2", 5)]) ∧
    ((7 : Nat) ≠ 5) := by
  decide

/-- C2 (amended): the restoration loop runs after every candidate
instance has been processed — the final ledger is exactly the fold of the
run's reservations, made regardless of which instances failed — and it
issues one desired-capacity update per recorded group, setting the group
back to the value in the ledger, which is the desired capacity observed at
that group's most recent reservation (later reservations overwrite
earlier ones). -/
theorem c2_amended (insts : List DriverInstance) (caps : String → Nat) (g : String) (d : Nat)
    (h : ((instances_restart insts).finalLedger).lookup g = some d) :
    ((instances_restart insts).finalLedger =
      (reservationsOf insts).foldl (fun l p => dictSet l p.1 p.2) []) ∧
    ((instances_restart insts).restoreCalls =
      ((instances_restart insts).finalLedger).map
        (fun p => CloudCall.updateAutoScalingGroup p.1 p.2)) ∧
    applyRestore caps ((instances_restart insts).finalLedger) g = d := by
  refine ⟨?_, rfl, ?_⟩
  · show (insts.foldl runStep { modified := [], failed := false, outcomes := [] }).modified = _
    rw [foldl_runStep_modified]
  · exact applyRestore_lookup _ caps g d (finalLedger_nodup insts) h

/-- Witness for c2_amended at a concrete one-instance run reserving group
gw at desired capacity 4. -/
theorem c2_witness :
    ((instances_restart [c2wit]).finalLedger =
      (reservationsOf [c2wit]).foldl (fun l p => dictSet l p.1 p.2) []) ∧
    ((instances_restart [c2wit]).restoreCalls =
      ((instances_restart [c2wit]).finalLedger).map
        (fun p => CloudCall.updateAutoScalingGroup p.1 p.2)) ∧
    applyRestore (fun _ => 0) ((instances_restart [c2wit]).finalLedger) "gw" = 4 :=
  c2_amended [c2wit] (fun _ => 0) "gw" 4 (by decide)

/-- C5, counterexample: group asg-5 is first reserved at observed desired
2; a later reservation in the same run observes desired 3 (its min size
changed externally in between) and overwrites the recorded 2 with 3, so
the second reservation is not a no-op and the first observed value is not
authoritative. -/
theorem c5_counterexample :
    ((restart_one_instance "asg-5" "i-1" c5envA []).2.1 = [("asg-5", 2)]) ∧
    ((restart_one_instance "asg-5" "i-2" c5envB
        ((restart_one_instance "asg-5" "i-1" c5envA []).2.1)).2.1 = [("asg-5", 3)]) ∧
    (([("asg-5", 3)] : Ledger) ≠ [("asg-5", 2)]) := by
  decide

/-- C5 (amended): a reservation records the currently observed desired
capacity, overwriting any earlier record for the group (the most recent
observation is authoritative); consequently, when a subsequent reservation
observes the same desired value as the one already recorded, it leaves the
ledger unchanged. -/
theorem c5_amended (asGroupName instId : String) (env : RestartEnv) (l : Ledger)
    (hadj : env.asGroup.desired = env.asGroup.minSize)
    (hnd : (l.map Prod.fst).Nodup)
    (hprev : l.lookup env.asGroup.name = some env.asGroup.desired) :
    ((restart_one_instance asGroupName instId env l).2.1.lookup env.asGroup.name =
      some env.asGroup.desired) ∧
    (restart_one_instance asGroupName instId env l).2.1 = l := by
  have hb : (env.asGroup.desired == env.asGroup.minSize) = true := beq_iff_eq.mpr hadj
  constructor
  · rw [restart_ledger_eq]
    simp only [hb, if_true]
    exact dictSet_lookup_self l _ _
  · rw [restart_ledger_eq]
    simp only [hb, if_true]
    exact dictSet_id_of_lookup l _ _ hnd hprev

/-- Witness for c5_amended: re-reserving group g at the already recorded
desired capacity 2 leaves the ledger unchanged. -/
theorem c5_witness :
    ((restart_one_instance "g" "x" c5wenv [("g", 2)]).2.1.lookup "g" = some 2) ∧
    ((restart_one_instance "g" "x" c5wenv [("g", 2)]).2.1 = [("g", 2)]) :=
  c5_amended "g" "x" c5wenv [("g", 2)] (by decide) (by decide) (by decide)

/-- C6, counterexample: wait_for_healthok performs no compute-state check:
for an instance whose state is terminated at every poll but whose
healthcheck answers the expected body, the health-verification loop
returns success instead of failing fatally; the running check lives in
wait_for_elb_state, which does raise on the same instance. -/
theorem c6_counterexample :
    (wait_for_healthok goneInst 1 = some ()) ∧
    (wait_for_elb_state goneInst "healthy" 1 =
      some (Except.error "Instance no longer running (state terminated)")) := by
  constructor
  · rfl
  · rfl

/-- C6 (amended): the re-validation that the instance's compute state is
still running happens on every poll of wait_for_elb_state (the
exit-standby ELB-health wait), where a non-running state raises a fatal
RuntimeError at once; wait_for_healthok consults only the healthcheck
responses and is insensitive to the compute state. -/
theorem c6_amended :
    (∀ (inst : Nat → InstancePoll) (state : String) (i fuel : Nat),
      (inst i).stateName ≠ "running" →
      wait_for_elb_state_from inst state i (fuel + 1) =
        some (Except.error
          ("Instance no longer running (state " ++ (inst i).stateName ++ ")"))) ∧
    (∀ (inst inst' : Nat → InstancePoll),
      (∀ j, (inst j).healthcheckResponse = (inst' j).healthcheckResponse) →
      ∀ i fuel, wait_for_healthok_from inst i fuel = wait_for_healthok_from inst' i fuel) := by
  constructor
  · intro inst state i fuel h
    simp [wait_for_elb_state_from, h]
  · intro inst inst' h i fuel
    induction fuel generalizing i with
    | zero => rfl
    | succ f ih =>
      simp only [wait_for_healthok_from, h i]
      rw [ih (i + 1)]

/-- Witness for c6_amended at the concrete terminated instance. -/
theorem c6_witness :
    (wait_for_elb_state_from goneInst "healthy" 0 (0 + 1) =
      some (Except.error
        ("Instance no longer running (state " ++ (goneInst 0).stateName ++ ")"))) ∧
    (wait_for_healthok_from goneInst 0 3 = wait_for_healthok_from goneInst 0 3) :=
  ⟨c6_amended.1 goneInst "healthy" 0 0 (by decide),
   c6_amended.2 goneInst goneInst (fun _ => rfl) 0 3⟩

/-- C7: an instance whose describe_autoscale lookup returns nothing, or
whose lifecycle state is not InService, is skipped by the fleet restart
loop with zero mutating calls on its behalf: the loop state is unchanged
except for recording the skip outcome with an empty call list (no
protection change, no capacity change, no standby request, no remote
command), and the ledger and failed flag are untouched. -/
theorem c7_skip_no_mutation (s : RunState) (inst : DriverInstance) :
    (inst.autoscale = none →
      runStep s inst =
        { s with outcomes := s.outcomes ++ [(RestartOutcome.skippedNotInGroup, [])] }) ∧
    (∀ st, inst.autoscale = some st → st.lifecycleState ≠ "InService" →
      runStep s inst =
        { s with outcomes := s.outcomes ++ [(RestartOutcome.skippedNotInService, [])] }) := by
  constructor
  · intro h
    simp [runStep, h]
  · intro st h hne
    simp [runStep, h, hne]

/-- Witness for c7_skip_no_mutation at a not-in-group instance and a
Standby instance over the empty loop state. -/
theorem c7_witness :
    (runStep skipStateW skipInstA =
      { skipStateW with
        outcomes := skipStateW.outcomes ++ [(RestartOutcome.skippedNotInGroup, [])] }) ∧
    (runStep skipStateW skipInstB =
      { skipStateW with
        outcomes := skipStateW.outcomes ++ [(RestartOutcome.skippedNotInService, [])] }) :=
  ⟨(c7_skip_no_mutation skipStateW skipInstA).1 rfl,
   (c7_skip_no_mutation skipStateW skipInstB).2
     { autoScalingGroupName := "g7", lifecycleState := "Standby" } rfl (by decide)⟩

/-- C8, counterexample: a healthcheck response body that carries a
trailing newline is not equal to the expected string, yet the probe
reports healthy, because the code strips the body before comparing. -/
theorem c8_counterexample :
    (is_everything_awesome (some "Everything is awesome\n") = true) ∧
    ("Everything is awesome\n" ≠ "Everything is awesome") := by
  decide

/-- C8 (amended): the health probe reports healthy exactly when the
response body, after stripping leading and trailing whitespace, equals
"Everything is awesome"; a transport error during the probe yields
unhealthy (false) rather than a fatal error, and the wait_for_healthok
loop then simply moves on to the next poll. -/
theorem c8_amended :
    (∀ r : Option String, is_everything_awesome r = true ↔
      ∃ s, r = some s ∧ pyStrip s = "Everything is awesome") ∧
    (is_everything_awesome none = false) ∧
    (∀ (inst : Nat → InstancePoll) (i fuel : Nat),
      (inst i).healthcheckResponse = none →
      wait_for_healthok_from inst i (fuel + 1) = wait_for_healthok_from inst (i + 1) fuel) := by
  refine ⟨?_, rfl, ?_⟩
  · intro r
    cases r with
    | none => simp [is_everything_awesome]
    | some s => simp [is_everything_awesome]
  · intro inst i fuel h
    simp [wait_for_healthok_from, is_everything_awesome, h]

/-- Witness for c8_amended at a concrete healthy response and at the
instance whose first poll's transport fails. -/
theorem c8_witness :
    (is_everything_awesome (some "Everything is awesome") = true ↔
      ∃ s, (some "Everything is awesome" : Option String) = some s ∧
        pyStrip s = "Everything is awesome") ∧
    (is_everything_awesome none = false) ∧
    (wait_for_healthok_from errPoll 0 (1 + 1) = wait_for_healthok_from errPoll (0 + 1) 1) :=
  ⟨c8_amended.1 (some "Everything is awesome"), c8_amended.2.1,
   c8_amended.2.2 errPoll 0 1 (by decide)⟩

/-- C10: in the PROD environment the stop command aborts before issuing
any remote command, regardless of confirmation; in any other environment
the service-stop command is sent to every instance exactly when the
operator confirmed, and nothing is sent otherwise. -/
theorem c10_prod_guard :
    (∀ (confirmed : Bool) (targets : List String),
      instances_stop Environment.prod confirmed targets = []) ∧
    (∀ (env : Environment) (confirmed : Bool) (targets : List String),
      env ≠ Environment.prod →
      instances_stop env confirmed targets =
        if confirmed then
          targets.map
            (fun i => CloudCall.remoteCommand i ["sudo", "systemctl", "stop", "compiler-explorer"])
        else []) := by
  constructor
  · intro confirmed targets
    rfl
  · intro env confirmed targets h
    simp [instances_stop, h]

/-- Witness for c10_prod_guard: PROD with confirmation issues nothing;
beta with confirmation issues the stop command. -/
theorem c10_witness :
    (instances_stop Environment.prod true ["i-1"] = []) ∧
    (instances_stop Environment.beta true ["i-1"] =
      if true then
        (["i-1"] : List String).map
          (fun i => CloudCall.remoteCommand i ["sudo", "systemctl", "stop", "compiler-explorer"])
      else []) :=
  ⟨c10_prod_guard.1 true ["i-1"],
   c10_prod_guard.2 Environment.beta true ["i-1"] (by decide)⟩
